import Mathlib

/-
Verification of the cycloid drive controller (src/drive/controller.cc).

The controller is embedded shallowly over ℚ.  The transcendental library
functions the C code calls (cosf, sinf, atan2f, sqrtf) and the constant π
are not algebraic, so they are supplied as parameters in a `MathEnv`
record; every claim proved here is uniform in that choice, and concrete
witnesses instantiate it with explicit rational-valued functions.  Machine
floats are modelled as exact rationals: the claims under check are about
control flow, field updates and algebraic identities, not rounding.
-/

namespace Cycloid

/-- Configuration gains, as in DriverConfig: all percentage-style values
scaled by 0.01 at the point of use. -/
structure DriverConfig where
  steering_kpy : ℚ
  steering_kvy : ℚ
  speed_limit : ℚ
  traction_limit : ℚ
  yaw_bw : ℚ
  motor_bw : ℚ

/-- A valid answer from the track oracle (Track::GetTarget out-params):
closest point (cx, cy), lateral normal (nx, ny), local curvature k. -/
structure TrackTarget where
  cx : ℚ
  cy : ℚ
  nx : ℚ
  ny : ℚ
  k : ℚ

/-- The mutable state of a DriveController: pose, filtered speeds, yaw
rate, integrators, steering angle, and the datalogging fields. -/
structure DriveState where
  x : ℚ
  y : ℚ
  theta : ℚ
  vf : ℚ
  vr : ℚ
  w : ℚ
  ierr_v : ℚ
  ierr_w : ℚ
  delta : ℚ
  target_k : ℚ
  target_v : ℚ
  target_w : ℚ
  ye : ℚ
  psie : ℚ
  k : ℚ
  bw_w : ℚ
  bw_v : ℚ

/-- Rational-valued stand-ins for the math library functions and π used
by the C code. -/
structure MathEnv where
  cos : ℚ → ℚ
  sin : ℚ → ℚ
  atan2 : ℚ → ℚ → ℚ
  sqrt : ℚ → ℚ
  pi : ℚ

/-- DC motor response constant M_K1 = 2.58. -/
def M_K1 : ℚ := 258/100

/-- DC motor response constant M_K2 = 0.093. -/
def M_K2 : ℚ := 93/1000

/-- DC motor response constant M_K3 = 0.218 (used as the Ki factor). -/
def M_K3 : ℚ := 218/1000

/-- Minimum control input (dead zone) M_OFFSET = 0.103. -/
def M_OFFSET : ℚ := 103/1000

/-- Car geometry: CG to front axle, GEOM_LF = 6.5 * 0.0254 m. -/
def GEOM_LF : ℚ := (65/10) * (254/10000)

/-- Car geometry: CG to rear axle, GEOM_LR = 5 * 0.0254 m. -/
def GEOM_LR : ℚ := 5 * (254/10000)

/-- Servo closed-loop bandwidth BW_SRV = 2*pi*4, as a function of the
supplied value of π. -/
def BW_SRV (env : MathEnv) : ℚ := 2 * env.pi * 4

/-- clip(x, min, max) from controller.cc. -/
def clip (x mn mx : ℚ) : ℚ :=
  if x < mn then mn else if x > mx then mx else x

/-- DriveController::TargetCurvature.  The oracle argument models the
`track_.GetTarget` member call.  Returns the curvature together with the
updated state (the datalogging stores ye_, psie_, k_, target_k_). -/
def TargetCurvature (env : MathEnv) (oracle : ℚ → ℚ → Option TrackTarget)
    (config : DriverConfig) (s : DriveState) : ℚ × DriveState :=
  match oracle s.x s.y with
  | none => (2, s)
  | some t =>
    let ye := (s.x - t.cx) * t.nx + (s.y - t.cy) * t.ny
    let C := env.cos s.theta
    let S := env.sin s.theta
    let Cp := -S * t.nx + C * t.ny
    let Sp := S * t.ny + C * t.nx
    let Cpy := Cp / (1 - t.k * ye)
    let Kpy := config.steering_kpy * (1/100)
    let Kvy := config.steering_kvy * (1/100)
    let targetk := Cpy * (ye * Cpy * (-Kpy * Cp) + Sp * (t.k * Sp - Kvy * Cp) + t.k)
    (targetk,
      { s with ye := ye, psie := env.atan2 Sp Cp, k := t.k, target_k := targetk })

/-- Curvature selected in active mode: the quadratic remap of the manual
steering input, overridden by the path-tracking output under autodrive. -/
def activeK (autodrive : Bool) (steering_in autok : ℚ) : ℚ :=
  if autodrive then autok else -steering_in * 2 * |steering_in|

/-- Speed ceiling selected in active mode. -/
def activeVmax (autodrive : Bool) (throttle_in : ℚ) (config : DriverConfig) : ℚ :=
  if autodrive then config.speed_limit * (1/100)
  else throttle_in * config.speed_limit * (1/100)

/-- Slip-ratio rear-speed target: vr = (vf + w*Lf*sin(delta)) / cos(delta). -/
def vrSlipTarget (env : MathEnv) (vf w delta : ℚ) : ℚ :=
  (vf + w * GEOM_LF * env.sin delta) / env.cos delta

/-- Traction/slip-limited target speed (the target_v computation of
DriveController::GetControl). -/
def activeTargetV (env : MathEnv) (config : DriverConfig)
    (k vmax vf w delta : ℚ) : ℚ :=
  let kmin := config.traction_limit * (1/100) / (vmax * vmax)
  if |k| > kmin then
    let tv := env.sqrt (config.traction_limit * (1/100) / |k|)
    let slip := vrSlipTarget env vf w delta
    if slip < tv ∧ slip > 1 then slip else tv
  else vmax

/-- Yaw-loop output: steering_out = clip(-BW_w*(ierr_w + err_w/BW_SRV), -1, 1). -/
def steeringOutVal (env : MathEnv) (config : DriverConfig)
    (err_w ierr_w : ℚ) : ℚ :=
  let BW_w := 2 * env.pi * (1/100) * config.yaw_bw
  clip (-BW_w * (ierr_w + err_w / BW_SRV env)) (-1) 1

/-- Drive-law throttle: clip(-Kp*(err_v + Ki*ierr_v) + M_OFFSET, 0, 1). -/
def driveThrottle (env : MathEnv) (config : DriverConfig)
    (err_v ierr_v vr : ℚ) : ℚ :=
  let BW_v := 2 * env.pi * (1/100) * config.motor_bw
  let Kp := BW_v / (M_K1 - M_K2 * vr)
  clip (-Kp * (err_v + M_K3 * ierr_v) + M_OFFSET) 0 1

/-- Brake-law throttle: clip(Kp2*(err_v + Ki*ierr_v - M_OFFSET), -1, 0)
with Kp2 = BW_v / (-M_K2*vr). -/
def brakeThrottle (env : MathEnv) (config : DriverConfig)
    (err_v ierr_v vr : ℚ) : ℚ :=
  let BW_v := 2 * env.pi * (1/100) * config.motor_bw
  let Kp2 := BW_v / (-M_K2 * vr)
  clip (Kp2 * (err_v + M_K3 * ierr_v - M_OFFSET)) (-1) 0

/-- The throttle output of the velocity loop: the drive law, replaced by
the brake law when it yields exactly 0 while vr > 0. -/
def throttleOutVal (env : MathEnv) (config : DriverConfig)
    (err_v ierr_v vr : ℚ) : ℚ :=
  let t0 := driveThrottle env config err_v ierr_v vr
  if t0 = 0 ∧ vr > 0 then brakeThrottle env config err_v ierr_v vr else t0

/-- The result of one GetControl tick: the two out-params, the updated
controller state, and the boolean return value. -/
structure ControlResult where
  throttle_out : ℚ
  steering_out : ℚ
  state : DriveState
  ok : Bool

/-- DriveController::GetControl.  The frameno argument of the C code only
feeds a printf and is omitted. -/
def GetControl (env : MathEnv) (oracle : ℚ → ℚ → Option TrackTarget)
    (config : DriverConfig) (throttle_in steering_in dt : ℚ)
    (autodrive : Bool) (s : DriveState) : ControlResult :=
  let ts := TargetCurvature env oracle config s
  let autok := ts.1
  let s1 := ts.2
  if ¬autodrive ∧ throttle_in ≤ 0 then
    { throttle_out := throttle_in
      steering_out := -steering_in
      state := { s1 with ierr_w := 0, ierr_v := 0 }
      ok := true }
  else
    let k := activeK autodrive steering_in autok
    let vmax := activeVmax autodrive throttle_in config
    let target_v := activeTargetV env config k vmax s1.vf s1.w s1.delta
    let target_w := k * s1.vr
    let err_v := s1.vr - target_v
    let err_w := s1.w - target_w
    let BW_w := 2 * env.pi * (1/100) * config.yaw_bw
    let sout := steeringOutVal env config err_w s1.ierr_w
    let BW_v := 2 * env.pi * (1/100) * config.motor_bw
    let tout := throttleOutVal env config err_v s1.ierr_v s1.vr
    let ierrv := if tout > -1 ∧ tout < 1 then s1.ierr_v + dt * err_v else s1.ierr_v
    let ierrw :=
      if (sout > -1 ∧ sout < 1) ∨ (err_w > 0 ∧ s1.ierr_w < 0) ∨ (err_w < 0 ∧ s1.ierr_w > 0)
      then s1.ierr_w + dt * err_w else s1.ierr_w
    { throttle_out := tout
      steering_out := sout
      state :=
        { s1 with ierr_v := ierrv, ierr_w := ierrw, target_v := target_v,
                  target_w := target_w, bw_w := BW_w, bw_v := BW_v }
      ok := true }

/-- DriveController::SerializedSize = sizeof(float)*17. -/
def SerializedSize : ℕ := 4 * 17

/-- The 17 serialized fields, in the order the memcpy calls write them. -/
def fieldVal (s : DriveState) (i : Fin 17) : ℚ :=
  match i.val with
  | 0 => s.x
  | 1 => s.y
  | 2 => s.theta
  | 3 => s.vf
  | 4 => s.vr
  | 5 => s.w
  | 6 => s.ierr_v
  | 7 => s.ierr_w
  | 8 => s.delta
  | 9 => s.target_k
  | 10 => s.target_v
  | 11 => s.target_w
  | 12 => s.ye
  | 13 => s.psie
  | 14 => s.k
  | 15 => s.bw_w
  | _ => s.bw_v

/-- The four representation bytes a memcpy of one float writes, given an
encoding `e` of a float value into its 4 bytes. -/
def enc4 (e : ℚ → Fin 4 → ℕ) (q : ℚ) : List ℕ :=
  [e q 0, e q 1, e q 2, e q 3]

/-- The 68-byte buffer contents DriveController::Serialize produces, in
the source's memcpy order. -/
def serBytes (e : ℚ → Fin 4 → ℕ) (s : DriveState) : List ℕ :=
  enc4 e s.x ++ enc4 e s.y ++ enc4 e s.theta ++ enc4 e s.vf ++ enc4 e s.vr ++
  enc4 e s.w ++ enc4 e s.ierr_v ++ enc4 e s.ierr_w ++ enc4 e s.delta ++
  enc4 e s.target_k ++ enc4 e s.target_v ++ enc4 e s.target_w ++
  enc4 e s.ye ++ enc4 e s.psie ++ enc4 e s.k ++ enc4 e s.bw_w ++ enc4 e s.bw_v

/-- DriveController::Serialize: the assert(buflen >= 68) precondition is
modelled as returning none, otherwise the buffer contents and the
returned byte count 68. -/
def Serialize (e : ℚ → Fin 4 → ℕ) (s : DriveState) (buflen : ℕ) :
    Option (List ℕ × ℕ) :=
  if buflen ≥ 68 then some (serBytes e s, 68) else none

/-- A concrete math environment for witnesses: cos is constantly 1 and
sin constantly 0 (the values at angle 0), atan2 and sqrt constantly 0,
and π is approximated by 3.14. -/
def testEnv : MathEnv :=
  { cos := fun _ => 1, sin := fun _ => 0, atan2 := fun _ _ => 0,
    sqrt := fun _ => 0, pi := 157/50 }

/-- The all-zero controller state, used as a concrete witness input. -/
def zeroState : DriveState :=
  ⟨0, 0, 0, 0, 0, 0, 0, 0, 0, 0, 0, 0, 0, 0, 0, 0, 0⟩

/-- The configuration of the spec's end-to-end scenario:
speedLimit=500, tractionLimit=300, yawBw=50, motorBw=50, kpy=100, kvy=50. -/
def testConfig : DriverConfig :=
  { steering_kpy := 100, steering_kvy := 50, speed_limit := 500,
    traction_limit := 300, yaw_bw := 50, motor_bw := 50 }

/-- The oracle of a controller with no track loaded: never a target. -/
def noTrack : ℚ → ℚ → Option TrackTarget := fun _ _ => none

/-- TargetCurvature only writes the four path diagnostics: all other
state fields pass through unchanged. -/
theorem TargetCurvature_frame (env : MathEnv) (oracle : ℚ → ℚ → Option TrackTarget)
    (config : DriverConfig) (s : DriveState) :
    (TargetCurvature env oracle config s).2.x = s.x ∧
    (TargetCurvature env oracle config s).2.y = s.y ∧
    (TargetCurvature env oracle config s).2.theta = s.theta ∧
    (TargetCurvature env oracle config s).2.vf = s.vf ∧
    (TargetCurvature env oracle config s).2.vr = s.vr ∧
    (TargetCurvature env oracle config s).2.w = s.w ∧
    (TargetCurvature env oracle config s).2.ierr_v = s.ierr_v ∧
    (TargetCurvature env oracle config s).2.ierr_w = s.ierr_w ∧
    (TargetCurvature env oracle config s).2.delta = s.delta ∧
    (TargetCurvature env oracle config s).2.target_v = s.target_v ∧
    (TargetCurvature env oracle config s).2.target_w = s.target_w ∧
    (TargetCurvature env oracle config s).2.bw_w = s.bw_w ∧
    (TargetCurvature env oracle config s).2.bw_v = s.bw_v := by
  cases h : oracle s.x s.y <;> simp [TargetCurvature, h]

/-- C1: for every config and every pose where the track oracle returns a
valid target, if the lateral error ye is 0 and the heading error is 0
(Cp = 1, Sp = 0), then TargetCurvature returns exactly the path's local
curvature k. -/
theorem C1_zero_error_returns_path_curvature
    (env : MathEnv) (oracle : ℚ → ℚ → Option TrackTarget)
    (config : DriverConfig) (s : DriveState) (t : TrackTarget)
    (hor : oracle s.x s.y = some t)
    (hye : (s.x - t.cx) * t.nx + (s.y - t.cy) * t.ny = 0)
    (hCp : -env.sin s.theta * t.nx + env.cos s.theta * t.ny = 1)
    (hSp : env.sin s.theta * t.ny + env.cos s.theta * t.nx = 0) :
    (TargetCurvature env oracle config s).1 = t.k := by
  simp only [TargetCurvature, hor]
  rw [hye, hCp, hSp]
  norm_num

/-- Witness for C1 at a concrete pose on a concrete track point with
curvature 5. -/
theorem C1_zero_error_returns_path_curvature_witness :
    (fun _ _ => some ⟨0, 0, 0, 1, 5⟩ : ℚ → ℚ → Option TrackTarget)
        zeroState.x zeroState.y = some ⟨0, 0, 0, 1, 5⟩ ∧
    (TargetCurvature testEnv (fun _ _ => some ⟨0, 0, 0, 1, 5⟩) testConfig
        zeroState).1 = (5 : ℚ) :=
  ⟨rfl, C1_zero_error_returns_path_curvature testEnv _ testConfig zeroState
    ⟨0, 0, 0, 1, 5⟩ rfl (by norm_num [zeroState]) (by norm_num [zeroState, testEnv])
    (by norm_num [zeroState, testEnv])⟩

/-- C4: with autodrive false and throttleIn ≤ 0, GetControl passes the
inputs through (throttleOut = throttleIn, steeringOut = −steeringIn) and
resets both integral accumulators to 0, for every prior state. -/
theorem C4_manual_coast_passthrough
    (env : MathEnv) (oracle : ℚ → ℚ → Option TrackTarget)
    (config : DriverConfig) (throttle_in steering_in dt : ℚ) (s : DriveState)
    (hth : throttle_in ≤ 0) :
    (GetControl env oracle config throttle_in steering_in dt false s).throttle_out
        = throttle_in ∧
    (GetControl env oracle config throttle_in steering_in dt false s).steering_out
        = -steering_in ∧
    (GetControl env oracle config throttle_in steering_in dt false s).state.ierr_v
        = 0 ∧
    (GetControl env oracle config throttle_in steering_in dt false s).state.ierr_w
        = 0 := by
  simp [GetControl, hth]

/-- Witness for C4: the spec's end-to-end scenario throttleIn = 0,
steeringIn = 0.5. -/
theorem C4_manual_coast_passthrough_witness :
    (0 : ℚ) ≤ 0 ∧
    (GetControl testEnv noTrack testConfig 0 (1/2) (1/50) false zeroState).throttle_out
        = 0 ∧
    (GetControl testEnv noTrack testConfig 0 (1/2) (1/50) false zeroState).steering_out
        = -(1/2) ∧
    (GetControl testEnv noTrack testConfig 0 (1/2) (1/50) false zeroState).state.ierr_v
        = 0 ∧
    (GetControl testEnv noTrack testConfig 0 (1/2) (1/50) false zeroState).state.ierr_w
        = 0 :=
  ⟨le_refl 0, C4_manual_coast_passthrough testEnv noTrack testConfig 0 (1/2) (1/50)
    zeroState (le_refl 0)⟩

/-- C9: with no valid track target, TargetCurvature returns the fallback
curvature 2, and under autodrive with the scenario config, throttleIn = 1
and steeringIn = 0, GetControl records targetW = 2·vr. -/
theorem C9_no_target_fallback
    (env : MathEnv) (oracle : ℚ → ℚ → Option TrackTarget)
    (dt : ℚ) (s : DriveState)
    (hor : oracle s.x s.y = none) :
    (TargetCurvature env oracle testConfig s).1 = 2 ∧
    (GetControl env oracle testConfig 1 0 dt true s).state.target_w
        = 2 * s.vr := by
  constructor
  · simp [TargetCurvature, hor]
  · simp [GetControl, TargetCurvature, hor, activeK]

/-- Witness for C9 at the all-zero state with no track loaded. -/
theorem C9_no_target_fallback_witness :
    noTrack zeroState.x zeroState.y = none ∧
    (TargetCurvature testEnv noTrack testConfig zeroState).1 = 2 ∧
    (GetControl testEnv noTrack testConfig 1 0 (1/50) true zeroState).state.target_w
        = 2 * zeroState.vr :=
  ⟨rfl, C9_no_target_fallback testEnv noTrack (1/50) zeroState rfl⟩

/-- C6: in active mode the velocity integrator gains dt·err_v exactly
when throttleOut is strictly inside (−1, 1); in particular a throttleOut
saturated at 1 leaves ierr_v unchanged. -/
theorem C6_velocity_integrator_antiwindup
    (env : MathEnv) (oracle : ℚ → ℚ → Option TrackTarget)
    (config : DriverConfig) (throttle_in steering_in dt : ℚ)
    (autodrive : Bool) (s : DriveState) (errv : ℚ)
    (hactive : ¬(¬autodrive ∧ throttle_in ≤ 0))
    (herr : errv = s.vr - activeTargetV env config
        (activeK autodrive steering_in (TargetCurvature env oracle config s).1)
        (activeVmax autodrive throttle_in config) s.vf s.w s.delta) :
    ((GetControl env oracle config throttle_in steering_in dt autodrive s).state.ierr_v
      = if (GetControl env oracle config throttle_in steering_in dt autodrive s).throttle_out > -1 ∧
           (GetControl env oracle config throttle_in steering_in dt autodrive s).throttle_out < 1
        then s.ierr_v + dt * errv else s.ierr_v) ∧
    ((GetControl env oracle config throttle_in steering_in dt autodrive s).throttle_out = 1 →
      (GetControl env oracle config throttle_in steering_in dt autodrive s).state.ierr_v
        = s.ierr_v) := by
  have hf := TargetCurvature_frame env oracle config s
  subst herr
  have key : (GetControl env oracle config throttle_in steering_in dt autodrive s).state.ierr_v
      = if (GetControl env oracle config throttle_in steering_in dt autodrive s).throttle_out > -1 ∧
           (GetControl env oracle config throttle_in steering_in dt autodrive s).throttle_out < 1
        then s.ierr_v + dt * (s.vr - activeTargetV env config
          (activeK autodrive steering_in (TargetCurvature env oracle config s).1)
          (activeVmax autodrive throttle_in config) s.vf s.w s.delta)
        else s.ierr_v := by
    simp only [GetControl]
    rw [if_neg hactive]
    simp only [hf]
  exact ⟨key, fun h => by rw [key, if_neg (by rw [h]; norm_num)]⟩

/-- Witness for C6: active autodrive tick at the zero state. -/
theorem C6_velocity_integrator_antiwindup_witness :
    ¬(¬(true : Bool) ∧ (1 : ℚ) ≤ 0) ∧
    (((GetControl testEnv noTrack testConfig 1 0 (1/50) true zeroState).state.ierr_v
      = if (GetControl testEnv noTrack testConfig 1 0 (1/50) true zeroState).throttle_out > -1 ∧
           (GetControl testEnv noTrack testConfig 1 0 (1/50) true zeroState).throttle_out < 1
        then zeroState.ierr_v + (1/50) * 0 else zeroState.ierr_v) ∧
    ((GetControl testEnv noTrack testConfig 1 0 (1/50) true zeroState).throttle_out = 1 →
      (GetControl testEnv noTrack testConfig 1 0 (1/50) true zeroState).state.ierr_v
        = zeroState.ierr_v)) :=
  ⟨by norm_num,
   C6_velocity_integrator_antiwindup testEnv noTrack testConfig 1 0 (1/50) true
     zeroState 0 (by norm_num)
     (by norm_num [activeTargetV, activeK, activeVmax, vrSlipTarget,
       TargetCurvature, noTrack, testEnv, zeroState, testConfig, GEOM_LF])⟩

/-- C7: in active mode the yaw integrator gains dt·err_w exactly when
steeringOut is strictly inside (−1, 1), or when the error would unwind a
saturated integrator (err_w > 0 with ierr_w < 0, or err_w < 0 with
ierr_w > 0). -/
theorem C7_yaw_integrator_antiwindup
    (env : MathEnv) (oracle : ℚ → ℚ → Option TrackTarget)
    (config : DriverConfig) (throttle_in steering_in dt : ℚ)
    (autodrive : Bool) (s : DriveState) (errw : ℚ)
    (hactive : ¬(¬autodrive ∧ throttle_in ≤ 0))
    (herr : errw = s.w - activeK autodrive steering_in
        (TargetCurvature env oracle config s).1 * s.vr) :
    (GetControl env oracle config throttle_in steering_in dt autodrive s).state.ierr_w
      = if ((GetControl env oracle config throttle_in steering_in dt autodrive s).steering_out > -1 ∧
            (GetControl env oracle config throttle_in steering_in dt autodrive s).steering_out < 1) ∨
           (errw > 0 ∧ s.ierr_w < 0) ∨ (errw < 0 ∧ s.ierr_w > 0)
        then s.ierr_w + dt * errw else s.ierr_w := by
  have hf := TargetCurvature_frame env oracle config s
  subst herr
  simp only [GetControl]
  rw [if_neg hactive]
  simp only [hf]

/-- Witness for C7: active autodrive tick at the zero state. -/
theorem C7_yaw_integrator_antiwindup_witness :
    ¬(¬(true : Bool) ∧ (1 : ℚ) ≤ 0) ∧
    ((GetControl testEnv noTrack testConfig 1 0 (1/50) true zeroState).state.ierr_w
      = if ((GetControl testEnv noTrack testConfig 1 0 (1/50) true zeroState).steering_out > -1 ∧
            (GetControl testEnv noTrack testConfig 1 0 (1/50) true zeroState).steering_out < 1) ∨
           ((0 : ℚ) > 0 ∧ zeroState.ierr_w < 0) ∨ ((0 : ℚ) < 0 ∧ zeroState.ierr_w > 0)
        then zeroState.ierr_w + (1/50) * 0 else zeroState.ierr_w) :=
  ⟨by norm_num,
   C7_yaw_integrator_antiwindup testEnv noTrack testConfig 1 0 (1/50) true
     zeroState 0 (by norm_num)
     (by norm_num [activeK, TargetCurvature, noTrack, zeroState])⟩

/-- C2: in active mode, when |k| exceeds tractionLimit·0.01/vmax² the
stored target speed is sqrt(tractionLimit·0.01/|k|), replaced by the slip
target exactly when the slip target is strictly below it and strictly
above 1; when |k| is at most the threshold the target speed is vmax. -/
theorem C2_traction_limited_speed
    (env : MathEnv) (oracle : ℚ → ℚ → Option TrackTarget)
    (config : DriverConfig) (throttle_in steering_in dt : ℚ)
    (autodrive : Bool) (s : DriveState) (k vmax : ℚ)
    (hactive : ¬(¬autodrive ∧ throttle_in ≤ 0))
    (hk : k = activeK autodrive steering_in (TargetCurvature env oracle config s).1)
    (hv : vmax = activeVmax autodrive throttle_in config) :
    (|k| > config.traction_limit * (1/100) / (vmax * vmax) →
      (GetControl env oracle config throttle_in steering_in dt autodrive s).state.target_v
        = if vrSlipTarget env s.vf s.w s.delta
               < env.sqrt (config.traction_limit * (1/100) / |k|) ∧
             vrSlipTarget env s.vf s.w s.delta > 1
          then vrSlipTarget env s.vf s.w s.delta
          else env.sqrt (config.traction_limit * (1/100) / |k|)) ∧
    (|k| ≤ config.traction_limit * (1/100) / (vmax * vmax) →
      (GetControl env oracle config throttle_in steering_in dt autodrive s).state.target_v
        = vmax) := by
  have hf := TargetCurvature_frame env oracle config s
  have key : (GetControl env oracle config throttle_in steering_in dt autodrive s).state.target_v
      = activeTargetV env config k vmax s.vf s.w s.delta := by
    subst hk hv
    simp only [GetControl]
    rw [if_neg hactive]
    simp only [hf]
  constructor
  · intro h
    rw [key]
    simp only [activeTargetV]
    rw [if_pos h]
  · intro h
    rw [key]
    simp only [activeTargetV]
    rw [if_neg (not_lt.mpr h)]

/-- Witness for C2 on the autodrive fallback curvature 2 with the
scenario config (vmax = 5, threshold 3/25 < 2). -/
theorem C2_traction_limited_speed_witness :
    ¬(¬(true : Bool) ∧ (1 : ℚ) ≤ 0) ∧
    |(2 : ℚ)| > testConfig.traction_limit * (1/100) / (5 * 5) ∧
    (GetControl testEnv noTrack testConfig 1 0 (1/50) true zeroState).state.target_v
      = if vrSlipTarget testEnv zeroState.vf zeroState.w zeroState.delta
             < testEnv.sqrt (testConfig.traction_limit * (1/100) / |(2 : ℚ)|) ∧
           vrSlipTarget testEnv zeroState.vf zeroState.w zeroState.delta > 1
        then vrSlipTarget testEnv zeroState.vf zeroState.w zeroState.delta
        else testEnv.sqrt (testConfig.traction_limit * (1/100) / |(2 : ℚ)|) := by
  have h2 : |(2 : ℚ)| > testConfig.traction_limit * (1/100) / (5 * 5) := by
    norm_num [testConfig]
  refine ⟨by norm_num, h2, ?_⟩
  exact (C2_traction_limited_speed testEnv noTrack testConfig 1 0 (1/50) true
    zeroState 2 5 (by norm_num)
    (by norm_num [activeK, TargetCurvature, noTrack])
    (by norm_num [activeVmax, testConfig])).1 h2

/-- clip keeps its value between the two given bounds. -/
theorem clip_bounds (x mn mx : ℚ) (h : mn ≤ mx) :
    mn ≤ clip x mn mx ∧ clip x mn mx ≤ mx := by
  unfold clip
  split_ifs with h1 h2 <;> constructor <;> linarith

/-- The velocity-loop throttle output always lies in [−1, 1]: the drive
law clips to [0, 1] and the brake law clips to [−1, 0]. -/
theorem throttleOutVal_bounds (env : MathEnv) (config : DriverConfig)
    (err_v ierr_v vr : ℚ) :
    -1 ≤ throttleOutVal env config err_v ierr_v vr ∧
    throttleOutVal env config err_v ierr_v vr ≤ 1 := by
  simp only [throttleOutVal, driveThrottle, brakeThrottle]
  split_ifs with h
  · exact ⟨(clip_bounds _ _ _ (by norm_num)).1,
      le_trans (clip_bounds _ _ _ (by norm_num)).2 (by norm_num)⟩
  · exact ⟨le_trans (by norm_num) (clip_bounds _ _ _ (by norm_num)).1,
      (clip_bounds _ _ _ (by norm_num)).2⟩

/-- The yaw-loop steering output always lies in [−1, 1]. -/
theorem steeringOutVal_bounds (env : MathEnv) (config : DriverConfig)
    (err_w ierr_w : ℚ) :
    -1 ≤ steeringOutVal env config err_w ierr_w ∧
    steeringOutVal env config err_w ierr_w ≤ 1 := by
  simp only [steeringOutVal]
  exact clip_bounds _ _ _ (by norm_num)

/-- Counterexample to C5 as stated: with autodrive false and
throttleIn = −2 the manual passthrough returns throttleOut = −2, outside
[−1, 1]. -/
theorem C5_counterexample :
    ¬(-1 ≤ (GetControl testEnv noTrack testConfig (-2) 0 (1/50) false
              zeroState).throttle_out ∧
      (GetControl testEnv noTrack testConfig (-2) 0 (1/50) false
          zeroState).throttle_out ≤ 1) := by
  norm_num [GetControl, TargetCurvature, noTrack]

/-- C5 amended: whenever throttleIn and steeringIn lie in [−1, 1], both
outputs of GetControl lie in [−1, 1] (the manual coast path passes the
inputs through unclipped; the active-mode paths are clipped). -/
theorem C5_outputs_bounded
    (env : MathEnv) (oracle : ℚ → ℚ → Option TrackTarget)
    (config : DriverConfig) (throttle_in steering_in dt : ℚ)
    (autodrive : Bool) (s : DriveState)
    (hti : -1 ≤ throttle_in) (hti2 : throttle_in ≤ 1)
    (hsi : -1 ≤ steering_in) (hsi2 : steering_in ≤ 1) :
    (-1 ≤ (GetControl env oracle config throttle_in steering_in dt autodrive s).throttle_out ∧
     (GetControl env oracle config throttle_in steering_in dt autodrive s).throttle_out ≤ 1) ∧
    (-1 ≤ (GetControl env oracle config throttle_in steering_in dt autodrive s).steering_out ∧
     (GetControl env oracle config throttle_in steering_in dt autodrive s).steering_out ≤ 1) := by
  simp only [GetControl]
  by_cases h : ¬autodrive = true ∧ throttle_in ≤ 0
  · rw [if_pos h]
    refine ⟨⟨hti, hti2⟩, ?_, ?_⟩
    · show -1 ≤ -steering_in
      linarith
    · show -steering_in ≤ 1
      linarith
  · rw [if_neg h]
    exact ⟨throttleOutVal_bounds _ _ _ _ _, steeringOutVal_bounds _ _ _ _⟩

/-- Witness for C5 amended, on an active manual tick. -/
theorem C5_outputs_bounded_witness :
    ((-1 : ℚ) ≤ 1 ∧ (1 : ℚ) ≤ 1 ∧ (-1 : ℚ) ≤ 1/2 ∧ (1 : ℚ)/2 ≤ 1) ∧
    (-1 ≤ (GetControl testEnv noTrack testConfig 1 (1/2) (1/50) false
             zeroState).throttle_out ∧
     (GetControl testEnv noTrack testConfig 1 (1/2) (1/50) false
         zeroState).throttle_out ≤ 1) ∧
    (-1 ≤ (GetControl testEnv noTrack testConfig 1 (1/2) (1/50) false
             zeroState).steering_out ∧
     (GetControl testEnv noTrack testConfig 1 (1/2) (1/50) false
         zeroState).steering_out ≤ 1) :=
  ⟨by norm_num,
   C5_outputs_bounded testEnv noTrack testConfig 1 (1/2) (1/50) false zeroState
     (by norm_num) (by norm_num) (by norm_num) (by norm_num)⟩

/-- A configuration exercising the braking hand-off: speed limit 90,
traction limit 100, yaw bandwidth 0, motor bandwidth 50. -/
def C8config : DriverConfig :=
  { steering_kpy := 100, steering_kvy := 50, speed_limit := 90,
    traction_limit := 100, yaw_bw := 0, motor_bw := 50 }

/-- The zero state rolling at vr = 1 m/s. -/
def C8state : DriveState := { zeroState with vr := 1 }

/-- Counterexample to C8 as stated: a tick where the drive law yields
exactly 0 with vr = 1 > 0 (err_v = 1/10, ierr_v = 0), yet the brake-law
expression is positive, so its clip to [−1, 0] returns exactly 0 and the
resulting throttleOut is not strictly negative. -/
theorem C8_counterexample :
    driveThrottle testEnv C8config (1/10) 0 1 = 0 ∧
    ((0 : ℚ) < 1) ∧
    (GetControl testEnv noTrack C8config 1 0 (1/50) false C8state).state.target_v
      = 9/10 ∧
    ¬((GetControl testEnv noTrack C8config 1 0 (1/50) false C8state).throttle_out
      < 0) := by
  refine ⟨?_, by norm_num, ?_, ?_⟩ <;>
    norm_num [GetControl, TargetCurvature, activeK, activeVmax, activeTargetV,
      vrSlipTarget, steeringOutVal, throttleOutVal, driveThrottle, brakeThrottle,
      clip, M_K1, M_K2, M_K3, M_OFFSET, GEOM_LF, BW_SRV, testEnv, noTrack,
      C8config, C8state, zeroState]

/-- C8 amended: in active mode, when the drive law yields exactly 0 and
vr > 0, GetControl switches to the brake law with gain
Kp2 = BWv/(−K2·vr); the resulting throttleOut lies in [−1, 0] (it can be
exactly 0 when the brake-law expression is nonnegative). -/
theorem C8_brake_law_handoff
    (env : MathEnv) (oracle : ℚ → ℚ → Option TrackTarget)
    (config : DriverConfig) (throttle_in steering_in dt : ℚ)
    (autodrive : Bool) (s : DriveState) (errv : ℚ)
    (hactive : ¬(¬autodrive ∧ throttle_in ≤ 0))
    (herr : errv = s.vr - activeTargetV env config
        (activeK autodrive steering_in (TargetCurvature env oracle config s).1)
        (activeVmax autodrive throttle_in config) s.vf s.w s.delta)
    (hzero : driveThrottle env config errv s.ierr_v s.vr = 0)
    (hvr : 0 < s.vr) :
    (GetControl env oracle config throttle_in steering_in dt autodrive s).throttle_out
      = brakeThrottle env config errv s.ierr_v s.vr ∧
    -1 ≤ (GetControl env oracle config throttle_in steering_in dt autodrive s).throttle_out ∧
    (GetControl env oracle config throttle_in steering_in dt autodrive s).throttle_out ≤ 0 := by
  have hf := TargetCurvature_frame env oracle config s
  subst herr
  have key : (GetControl env oracle config throttle_in steering_in dt autodrive s).throttle_out
      = brakeThrottle env config (s.vr - activeTargetV env config
          (activeK autodrive steering_in (TargetCurvature env oracle config s).1)
          (activeVmax autodrive throttle_in config) s.vf s.w s.delta) s.ierr_v s.vr := by
    have key0 : (GetControl env oracle config throttle_in steering_in dt autodrive s).throttle_out
        = throttleOutVal env config (s.vr - activeTargetV env config
            (activeK autodrive steering_in (TargetCurvature env oracle config s).1)
            (activeVmax autodrive throttle_in config) s.vf s.w s.delta) s.ierr_v s.vr := by
      simp only [GetControl]
      rw [if_neg hactive]
      simp only [hf]
    rw [key0]
    simp only [throttleOutVal]
    rw [if_pos ⟨hzero, hvr⟩]
  refine ⟨key, ?_, ?_⟩
  · rw [key]
    simp only [brakeThrottle]
    exact (clip_bounds _ _ _ (by norm_num)).1
  · rw [key]
    simp only [brakeThrottle]
    exact (clip_bounds _ _ _ (by norm_num)).2

/-- Witness for C8 amended, at the counterexample tick. -/
theorem C8_brake_law_handoff_witness :
    ¬(¬(false : Bool) ∧ (1 : ℚ) ≤ 0) ∧
    driveThrottle testEnv C8config (1/10) 0 1 = 0 ∧ ((0 : ℚ) < 1) ∧
    ((GetControl testEnv noTrack C8config 1 0 (1/50) false C8state).throttle_out
      = brakeThrottle testEnv C8config (1/10) C8state.ierr_v C8state.vr ∧
    -1 ≤ (GetControl testEnv noTrack C8config 1 0 (1/50) false C8state).throttle_out ∧
    (GetControl testEnv noTrack C8config 1 0 (1/50) false C8state).throttle_out ≤ 0) := by
  refine ⟨by norm_num, ?_, by norm_num, ?_⟩
  · norm_num [driveThrottle, clip, M_K1, M_K2, M_K3, M_OFFSET, testEnv, C8config]
  · exact C8_brake_law_handoff testEnv noTrack C8config 1 0 (1/50) false C8state
      (1/10) (by norm_num)
      (by norm_num [activeTargetV, activeK, activeVmax, vrSlipTarget,
        TargetCurvature, noTrack, testEnv, C8state, zeroState, C8config, GEOM_LF])
      (by norm_num [driveThrottle, clip, M_K1, M_K2, M_K3, M_OFFSET, testEnv,
        C8config, C8state, zeroState])
      (by norm_num [C8state, zeroState])

/-- Counterexample to C10 as stated: on a manual coast tick the bw_v
diagnostic keeps its previous value 99, which is not the freshly computed
bandwidth 2π·0.01·motorBw. -/
theorem C10_counterexample :
    (GetControl testEnv noTrack testConfig 0 0 (1/50) false
        { zeroState with bw_v := 99 }).state.bw_v = 99 ∧
    (99 : ℚ) ≠ 2 * testEnv.pi * (1/100) * testConfig.motor_bw := by
  constructor
  · norm_num [GetControl, TargetCurvature, noTrack, zeroState]
  · norm_num [testEnv, testConfig]

/-- C10 amended: the path diagnostics (ye, psie, k, target_k) are exactly
those stored by TargetCurvature: freshly written when the oracle returns
a target, retained when it does not; the loop diagnostics (target_v,
target_w, bw_w, bw_v) are freshly written exactly in active mode and
retained on the manual coast path. -/
theorem C10_diagnostic_write_paths
    (env : MathEnv) (oracle : ℚ → ℚ → Option TrackTarget)
    (config : DriverConfig) (throttle_in steering_in dt : ℚ)
    (autodrive : Bool) (s : DriveState) :
    ((GetControl env oracle config throttle_in steering_in dt autodrive s).state.ye
        = (TargetCurvature env oracle config s).2.ye ∧
     (GetControl env oracle config throttle_in steering_in dt autodrive s).state.psie
        = (TargetCurvature env oracle config s).2.psie ∧
     (GetControl env oracle config throttle_in steering_in dt autodrive s).state.k
        = (TargetCurvature env oracle config s).2.k ∧
     (GetControl env oracle config throttle_in steering_in dt autodrive s).state.target_k
        = (TargetCurvature env oracle config s).2.target_k) ∧
    (oracle s.x s.y = none → (TargetCurvature env oracle config s).2 = s) ∧
    (∀ t : TrackTarget, oracle s.x s.y = some t →
      (TargetCurvature env oracle config s).2.target_k
          = (TargetCurvature env oracle config s).1 ∧
      (TargetCurvature env oracle config s).2.k = t.k ∧
      (TargetCurvature env oracle config s).2.ye
          = (s.x - t.cx) * t.nx + (s.y - t.cy) * t.ny ∧
      (TargetCurvature env oracle config s).2.psie
          = env.atan2 (env.sin s.theta * t.ny + env.cos s.theta * t.nx)
              (-env.sin s.theta * t.nx + env.cos s.theta * t.ny)) ∧
    (¬autodrive ∧ throttle_in ≤ 0 →
      (GetControl env oracle config throttle_in steering_in dt autodrive s).state.target_v
          = s.target_v ∧
      (GetControl env oracle config throttle_in steering_in dt autodrive s).state.target_w
          = s.target_w ∧
      (GetControl env oracle config throttle_in steering_in dt autodrive s).state.bw_w
          = s.bw_w ∧
      (GetControl env oracle config throttle_in steering_in dt autodrive s).state.bw_v
          = s.bw_v) ∧
    (¬(¬autodrive ∧ throttle_in ≤ 0) →
      (GetControl env oracle config throttle_in steering_in dt autodrive s).state.target_v
          = activeTargetV env config
              (activeK autodrive steering_in (TargetCurvature env oracle config s).1)
              (activeVmax autodrive throttle_in config) s.vf s.w s.delta ∧
      (GetControl env oracle config throttle_in steering_in dt autodrive s).state.target_w
          = activeK autodrive steering_in (TargetCurvature env oracle config s).1 * s.vr ∧
      (GetControl env oracle config throttle_in steering_in dt autodrive s).state.bw_w
          = 2 * env.pi * (1/100) * config.yaw_bw ∧
      (GetControl env oracle config throttle_in steering_in dt autodrive s).state.bw_v
          = 2 * env.pi * (1/100) * config.motor_bw) := by
  have hf := TargetCurvature_frame env oracle config s
  refine ⟨?_, ?_, ?_, ?_, ?_⟩
  · simp only [GetControl]
    by_cases h : ¬autodrive = true ∧ throttle_in ≤ 0
    · rw [if_pos h]
      exact ⟨rfl, rfl, rfl, rfl⟩
    · rw [if_neg h]
      exact ⟨rfl, rfl, rfl, rfl⟩
  · intro hor
    simp [TargetCurvature, hor]
  · intro t hor
    simp [TargetCurvature, hor]
  · intro h
    simp only [GetControl]
    rw [if_pos h]
    simp [hf]
  · intro h
    simp only [GetControl]
    rw [if_neg h]
    simp [hf]

/-- Witness for C10 amended: with no track target, TargetCurvature
leaves the whole state unchanged. -/
theorem C10_diagnostic_write_paths_witness :
    noTrack zeroState.x zeroState.y = none ∧
    (TargetCurvature testEnv noTrack testConfig zeroState).2 = zeroState :=
  ⟨rfl, (C10_diagnostic_write_paths testEnv noTrack testConfig 0 0 (1/50) false
    zeroState).2.1 rfl⟩

set_option maxHeartbeats 1600000 in
/-- C3: SerializedSize is 68; Serialize fails below capacity 68 and
otherwise writes the 17 four-byte fields back to back — the bytes of
field i sit at offsets 4i..4i+3 — in the order x, y, theta, vf, vr, w,
ierr_v, ierr_w, delta, target_k, target_v, target_w, ye, psie, k, bw_w,
bw_v, returning 68. -/
theorem C3_serialize_layout (e : ℚ → Fin 4 → ℕ) (s : DriveState) (buflen : ℕ) :
    SerializedSize = 68 ∧
    (buflen < 68 → Serialize e s buflen = none) ∧
    (68 ≤ buflen → Serialize e s buflen = some (serBytes e s, 68)) ∧
    (serBytes e s).length = 68 ∧
    (∀ i j : ℕ, ∀ hi : i < 17, ∀ hj : j < 4,
      (serBytes e s)[4 * i + j]? = some (e (fieldVal s ⟨i, hi⟩) ⟨j, hj⟩)) := by
  refine ⟨rfl, ?_, ?_, ?_, ?_⟩
  · intro h
    simp only [Serialize]
    rw [if_neg (by omega)]
  · intro h
    simp only [Serialize]
    rw [if_pos h]
  · simp [serBytes, enc4]
  · intro i j hi hj
    interval_cases i <;> interval_cases j <;> simp [serBytes, enc4, fieldVal]

/-- Witness for C3: both capacity outcomes at concrete inputs. -/
theorem C3_serialize_layout_witness :
    (67 < 68 ∧ Serialize (fun _ _ => 0) zeroState 67 = none) ∧
    (68 ≤ 68 ∧ Serialize (fun _ _ => 0) zeroState 68
      = some (serBytes (fun _ _ => 0) zeroState, 68)) :=
  ⟨⟨by norm_num,
    (C3_serialize_layout (fun _ _ => 0) zeroState 67).2.1 (by norm_num)⟩,
   ⟨le_refl 68,
    (C3_serialize_layout (fun _ _ => 0) zeroState 68).2.2.1 (le_refl 68)⟩⟩

end Cycloid
